import Mathlib

/-!
Verification development for the rql-py installer shim.

The repository has two executable components:

* `scripts/postinstall.js` — the provisioner: discovers a Python >= 3.11
  interpreter, creates a virtual environment under `vendor/venv` if absent,
  upgrades the packaging toolchain and pip-installs the bundled package.
* the launcher shim (`bin/rql.js`) — resolves the fixed venv interpreter
  path, validates its existence, and delegates the current invocation to
  `<venv-python> -m rql <argv>`, propagating exit code or signal.

We embed both shallowly: child-process results are inputs (an environment
record), and each script becomes a pure function from that environment to
an outcome record describing which steps ran and how the process exits.
-/

namespace RqlPy

/-! ### Models of the JavaScript string primitives used by the probe parser -/

/-- Characters treated as trimmable whitespace.  JavaScript `trim` removes
the full Unicode white-space class; the probe outputs considered here only
carry ASCII whitespace, so the model is restricted to it. -/
def isJsWhitespace (c : Char) : Bool :=
  c = ' ' || c = '\t' || c = '\n' || c = '\r' || c = '\x0b' || c = '\x0c'

/-- Model of JavaScript `s.trim()`: drop whitespace from both ends. -/
def jsTrim (s : String) : String :=
  String.mk (((s.data.dropWhile isJsWhitespace).reverse.dropWhile isJsWhitespace).reverse)

/-- Helper for `jsSplit`: walk the character list, cutting at the separator. -/
def jsSplitAux (sep : Char) : List Char → List Char → List String
  | [], acc => [String.mk acc.reverse]
  | c :: cs, acc =>
    if c = sep then String.mk acc.reverse :: jsSplitAux sep cs []
    else jsSplitAux sep cs (c :: acc)

/-- Model of JavaScript `s.split(sep)` for a one-character separator:
`"".split` gives `[""]`, and empty fields between separators are kept. -/
def jsSplit (sep : Char) (s : String) : List String :=
  jsSplitAux sep s.data []

/-- Value of a list of decimal digit characters, most significant first. -/
def decimalValue (cs : List Char) : Nat :=
  cs.foldl (fun n c => 10 * n + (c.toNat - 48)) 0

/-- Model of the JavaScript `Number(string)` coercion, restricted to the
forms the version probe can produce: surrounding whitespace is ignored, the
empty (or all-whitespace) string converts to `0`, a string of decimal
digits converts to its value, and anything else is NaN, modelled as `none`.
(Exotic numeric syntax — signs, hex, exponents — is outside the modelled
domain.) -/
def jsNumber (s : String) : Option Nat :=
  let t := (jsTrim s).data
  if t = [] then some 0
  else if t.all Char.isDigit then some (decimalValue t)
  else none

/-! ### Interpreter discovery (`findPython311Plus` in scripts/postinstall.js) -/

/-- Result of `spawnSync(cmd, args, { encoding: 'utf8' })` as used by
`runCapture`: `status` is the numeric exit status or `none` when the child
never ran or was killed by a signal; `stdout` is the captured text or
`none` when spawning failed (the JavaScript value is `null` then). -/
structure CaptureResult where
  status : Option Int
  stdout : Option String
deriving DecidableEq

/-- JavaScript truthiness of the captured `stdout` field: `null` and the
empty string are falsy, any other string is truthy. -/
def stdoutTruthy : Option String → Bool
  | none => false
  | some s => !(s = "")

/-- `const v = (res.stdout || '').trim()` — the trimmed version string. -/
def probedVersionString (res : CaptureResult) : String :=
  jsTrim (res.stdout.getD "")

/-- The version test applied to the trimmed probe output `v`:
`const [maj, min] = v.split('.').map(Number); maj === 3 && min >= 11`.
A missing component is `undefined` and NaN compares false, both modelled
by `none`. -/
def versionOk (v : String) : Bool :=
  let nums := (jsSplit '.' v).map jsNumber
  let majc := (nums.get? 0).join
  let minc := (nums.get? 1).join
  majc = some 3 && match minc with
    | some m => decide (11 ≤ m)
    | none => false

/-- The acceptance test of the discovery loop body:
`res && res.status === 0 && res.stdout` guards the parse, then the parsed
version must be `3.>=11`.  (`res` itself is always truthy.) -/
def candidateAccepted (res : CaptureResult) : Bool :=
  res.status = some 0 && stdoutTruthy res.stdout && versionOk (probedVersionString res)

/-- The platform-specific fixed candidate list of `findPython311Plus`. -/
def candidates (platform : String) : List String :=
  if platform = "win32" then ["py -3.11", "py -3", "python3", "python"]
  else ["python3.12", "python3.11", "python3", "python"]

/-- The discovery loop over a candidate list: return the first candidate
whose probe is accepted, `none` if the list is exhausted.  `probe c` is the
`runCapture` result of invoking candidate `c` with the version-printing
one-liner. -/
def findFirstUsable (probe : String → CaptureResult) : List String → Option String
  | [] => none
  | c :: rest =>
    if candidateAccepted (probe c) then some c else findFirstUsable probe rest

/-- `findPython311Plus`: run the discovery loop over the platform's fixed
candidate list. -/
def findPython311Plus (platform : String) (probe : String → CaptureResult) : Option String :=
  findFirstUsable probe (candidates platform)

/-! ### Discovery helper lemmas -/

/-- A rejected head candidate is skipped: the search continues on the tail. -/
theorem findFirstUsable_cons_of_rejected (probe : String → CaptureResult)
    (c : String) (rest : List String) (h : candidateAccepted (probe c) = false) :
    findFirstUsable probe (c :: rest) = findFirstUsable probe rest := by
  simp [findFirstUsable, h]

/-- If the search returns a candidate, it is a member of the list, its probe
was accepted, and every candidate strictly before it was rejected. -/
theorem findFirstUsable_eq_some (probe : String → CaptureResult) :
    ∀ (l : List String) (c : String), findFirstUsable probe l = some c →
      ∃ pre suf, l = pre ++ c :: suf ∧ candidateAccepted (probe c) = true ∧
        ∀ d ∈ pre, candidateAccepted (probe d) = false := by
  intro l
  induction l with
  | nil => intro c h; simp [findFirstUsable] at h
  | cons a rest ih =>
    intro c h
    by_cases ha : candidateAccepted (probe a) = true
    · refine ⟨[], rest, ?_, ?_, ?_⟩
      · have : a = c := by
          simpa [findFirstUsable, ha] using h
        simp [this]
      · have : a = c := by
          simpa [findFirstUsable, ha] using h
        simpa [this] using ha
      · intro d hd; simp at hd
    · have ha' : candidateAccepted (probe a) = false := by
        simpa using ha
      have htail : findFirstUsable probe rest = some c := by
        simpa [findFirstUsable, ha'] using h
      obtain ⟨pre, suf, hl, hacc, hpre⟩ := ih c htail
      refine ⟨a :: pre, suf, by simp [hl], hacc, ?_⟩
      intro d hd
      rcases List.mem_cons.mp hd with hda | hdp
      · simpa [hda] using ha'
      · exact hpre d hdp

/-- The search returns `none` exactly when every candidate is rejected. -/
theorem findFirstUsable_eq_none (probe : String → CaptureResult) :
    ∀ l : List String, findFirstUsable probe l = none ↔
      ∀ c ∈ l, candidateAccepted (probe c) = false := by
  intro l
  induction l with
  | nil => simp [findFirstUsable]
  | cons a rest ih =>
    by_cases ha : candidateAccepted (probe a) = true
    · simp [findFirstUsable, ha]
    · have ha' : candidateAccepted (probe a) = false := by simpa using ha
      simp [findFirstUsable, ha', ih]

/-! ### Shared filesystem layout

Paths are modelled as segment lists relative to the installation root
(`ROOT` = `path.resolve(__dirname, '..')` in both scripts). -/

/-- `vendor/venv` — the isolated environment root. -/
def VENV : List String := ["vendor", "venv"]

/-- The fixed venv interpreter path: `vendor/venv/Scripts/python.exe` on
Windows, `vendor/venv/bin/python` elsewhere.  Both scripts compute it. -/
def venvPython (isWin : Bool) : List String :=
  if isWin then VENV ++ ["Scripts", "python.exe"] else VENV ++ ["bin", "python"]

/-! ### The launcher shim (bin/rql.js) -/

/-- How the launcher process finally terminates: either `process.exit`
with a numeric code, or re-delivery of the child's fatal signal via
`process.kill(process.pid, signal)`. -/
inductive Termination where
  | exitCode : Int → Termination
  | signalled : String → Termination
deriving DecidableEq

/-- The `child.on('exit', (code, signal) => ...)` handler:
`if (signal) process.kill(process.pid, signal); process.exit(code ?? 0);`.
A `none` signal is JavaScript `null`; the empty string would also be falsy,
so it too falls through to `process.exit`. -/
def onChildExit (code : Option Int) (signal : Option String) : Termination :=
  match signal with
  | some s => if s = "" then Termination.exitCode (code.getD 0) else Termination.signalled s
  | none => Termination.exitCode (code.getD 0)

/-- The two stderr lines printed by `fail(msg)` before `process.exit(1)`. -/
def failMessages (msg : String) : List String :=
  ["[rql-py] " ++ msg, "[rql-py] Try reinstalling: npm rebuild -g rql-py"]

/-- Overall observable behaviour of one launcher invocation: either it
failed before spawning any child (with an exit code and the printed
lines), or it spawned the given command with the given argument vector and
terminated as the child dictated. -/
inductive LaunchOutcome where
  | failedBeforeSpawn : Int → List String → LaunchOutcome
  | delegated : List String → List String → Termination → LaunchOutcome
deriving DecidableEq

/-- The launcher script, as a function of the platform flag, the
filesystem (`fsExists p` models `fs.existsSync` on path `p`), the
forwarded arguments `argv` (= `process.argv.slice(2)`) and the child's
exit report.  It validates the venv interpreter path, then spawns
`venvPython ['-m', 'rql', ...argv]` and propagates termination. -/
def launcher (isWin : Bool) (fsExists : List String → Bool) (argv : List String)
    (childCode : Option Int) (childSignal : Option String) : LaunchOutcome :=
  if !fsExists (venvPython isWin) then
    LaunchOutcome.failedBeforeSpawn 1
      (failMessages "Python venv not found. Was the postinstall step blocked?")
  else
    LaunchOutcome.delegated (venvPython isWin) (["-m", "rql"] ++ argv)
      (onChildExit childCode childSignal)

/-! ### The provisioner (scripts/postinstall.js `main`) -/

/-- Result of `spawnSync(cmd, args, { stdio: 'inherit' })` as consumed by
`run`: a numeric exit status, or `none` together with whether the `error`
field was set (spawn failure). -/
structure RunResult where
  status : Option Int
  error : Bool
deriving DecidableEq

/-- `run`'s return value: the numeric status when there is one, else 1 on
a spawn error and 0 otherwise. -/
def runStatus (r : RunResult) : Int :=
  match r.status with
  | some s => s
  | none => if r.error then 1 else 0

/-- Inputs the provisioner reads from the outside world: the platform, the
probe results for interpreter discovery, whether `vendor/venv` already
exists, and the results of the three child invocations (venv creation,
pip-toolchain upgrade, package install) should they run. -/
structure ProvisionEnv where
  platform : String
  probe : String → CaptureResult
  venvExists : Bool
  createResult : RunResult
  upgradeResult : RunResult
  installResult : RunResult

/-- Observable behaviour of one provisioner run: the selected interpreter
(if any), which of the three side-effecting child steps were invoked, and
the process exit code (0 when `main` falls off the end successfully). -/
structure ProvisionOutcome where
  selected : Option String
  ranCreate : Bool
  ranUpgrade : Bool
  ranInstall : Bool
  exitCode : Int
deriving DecidableEq

/-- Steps 3 and 4 of `main`: upgrade pip/setuptools/wheel, then
`pip install .`; each aborts with `process.exit(1)` on failure. -/
def mainAfterCreate (py : String) (created : Bool) (env : ProvisionEnv) : ProvisionOutcome :=
  if runStatus env.upgradeResult ≠ 0 then
    ⟨some py, created, true, false, 1⟩
  else if runStatus env.installResult ≠ 0 then
    ⟨some py, created, true, true, 1⟩
  else
    ⟨some py, created, true, true, 0⟩

/-- `main` of scripts/postinstall.js: discover an interpreter (exit 1 when
none qualifies), create the venv when `vendor/venv` is absent (aborting
with the creation status when it is non-zero), then upgrade the toolchain
and install the package. -/
def main (env : ProvisionEnv) : ProvisionOutcome :=
  match findPython311Plus env.platform env.probe with
  | none => ⟨none, false, false, false, 1⟩
  | some py =>
    if !env.venvExists then
      let status := runStatus env.createResult
      if status ≠ 0 then ⟨some py, true, false, false, status⟩
      else mainAfterCreate py true env
    else mainAfterCreate py false env

/-! ### Helper lemmas about the version check -/

/-- Unfolding of a successful version check: the first dot-separated field
converts to 3 and the second to some number at least 11 (`.join` collapses
a missing field and a NaN conversion alike to `none`, as JavaScript's
`undefined`/NaN comparisons both yield false). -/
theorem versionOk_true_elim (v : String) (h : versionOk v = true) :
    (((jsSplit '.' v).map jsNumber).get? 0).join = some 3 ∧
    ∃ m, (((jsSplit '.' v).map jsNumber).get? 1).join = some m ∧ 11 ≤ m := by
  unfold versionOk at h
  simp only [Bool.and_eq_true, decide_eq_true_eq] at h
  obtain ⟨hmaj, hmin⟩ := h
  refine ⟨hmaj, ?_⟩
  cases hj : (((jsSplit '.' v).map jsNumber).get? 1).join with
  | none => rw [hj] at hmin; simp at hmin
  | some m =>
    rw [hj] at hmin
    simp only [decide_eq_true_eq] at hmin
    exact ⟨m, rfl, hmin⟩

/-- A probe whose status is not the number 0 can never be accepted. -/
theorem candidateAccepted_false_of_status (res : CaptureResult)
    (h : res.status ≠ some 0) : candidateAccepted res = false := by
  unfold candidateAccepted
  simp [h]

end RqlPy

namespace RqlPy

/-! ### Concrete probe environments used as witnesses -/

/-- Probe results giving versions 3.9, 3.10, 3.12, 2.7 to the non-Windows
candidates in priority order. -/
def probeThreeVersions : String → CaptureResult := fun c =>
  if c = "python3.12" then ⟨some 0, some "3.9"⟩
  else if c = "python3.11" then ⟨some 0, some "3.10"⟩
  else if c = "python3" then ⟨some 0, some "3.12"⟩
  else ⟨some 0, some "2.7"⟩

/-- Probe results where the most-preferred candidate binary is absent
(spawn failed: no status, no stdout) and the next one is a Python 3.11. -/
def probeFirstAbsent : String → CaptureResult := fun c =>
  if c = "python3.12" then ⟨none, none⟩ else ⟨some 0, some "3.11"⟩

/-- Probe results where the most-preferred candidate prints a string that
does not parse as two dot-separated numbers, and the next one qualifies. -/
def probeFirstGarbled : String → CaptureResult := fun c =>
  if c = "python3.12" then ⟨some 0, some "Python 3.11"⟩
  else ⟨some 0, some "3.11"⟩

/-! ### Claim theorems: interpreter discovery -/

/-- C1: discovery iterates the platform's fixed candidate list in priority
order and returns the first candidate whose probe is accepted (status 0,
truthy stdout, parsed version `3.>=11`); when no candidate is accepted it
returns `none`. -/
theorem claim1_discovery_first_match (platform : String) (probe : String → CaptureResult) :
    (∀ c, findPython311Plus platform probe = some c →
      ∃ pre suf, candidates platform = pre ++ c :: suf ∧
        candidateAccepted (probe c) = true ∧
        ∀ d ∈ pre, candidateAccepted (probe d) = false) ∧
    (findPython311Plus platform probe = none ↔
      ∀ c ∈ candidates platform, candidateAccepted (probe c) = false) := by
  exact ⟨fun c h => findFirstUsable_eq_some probe (candidates platform) c h,
    findFirstUsable_eq_none probe (candidates platform)⟩

/-- C1 witness: with probed versions 3.9, 3.10, 3.12 (and 2.7) in priority
order on the non-Windows list, discovery selects the third candidate — the
one probing 3.12 — and the earlier candidates were indeed rejected. -/
theorem claim1_discovery_first_match_witness :
    findPython311Plus "linux" probeThreeVersions = some "python3" ∧
    candidateAccepted (probeThreeVersions "python3.12") = false ∧
    candidateAccepted (probeThreeVersions "python3.11") = false ∧
    candidateAccepted (probeThreeVersions "python3") = true := by
  have h := (claim1_discovery_first_match "linux" probeThreeVersions).1 "python3" rfl
  exact ⟨rfl, rfl, rfl, h.choose_spec.choose_spec.2.1⟩

/-- C7: a candidate whose probe did not exit with status 0 — including a
spawn failure for an absent binary, where the status is `none` — is
rejected, and the search simply continues with the remaining candidates. -/
theorem claim7_probe_failure_skipped (probe : String → CaptureResult) (c : String)
    (rest : List String) (h : (probe c).status ≠ some 0) :
    candidateAccepted (probe c) = false ∧
    findFirstUsable probe (c :: rest) = findFirstUsable probe rest := by
  have hacc := candidateAccepted_false_of_status (probe c) h
  exact ⟨hacc, findFirstUsable_cons_of_rejected probe c rest hacc⟩

/-- C7 witness: with the preferred binary absent, discovery skips it and
still finds the next candidate. -/
theorem claim7_probe_failure_skipped_witness :
    candidateAccepted (probeFirstAbsent "python3.12") = false ∧
    findFirstUsable probeFirstAbsent ("python3.12" :: ["python3.11"]) =
      findFirstUsable probeFirstAbsent ["python3.11"] ∧
    findPython311Plus "linux" probeFirstAbsent = some "python3.11" := by
  have h := claim7_probe_failure_skipped probeFirstAbsent "python3.12" ["python3.11"]
    (fun hc => Option.noConfusion hc)
  exact ⟨h.1, h.2, rfl⟩

/-- C10: version parsing is total and safe — acceptance forces the trimmed
stdout to parse as major 3 and minor at least 11, so empty output, output
that is not two dot-separated numbers, and arbitrary garbage are all
silently rejected, after which the search continues with the next
candidate. -/
theorem claim10_malformed_probe_output_safe :
    (∀ res : CaptureResult, candidateAccepted res = true →
      (((jsSplit '.' (probedVersionString res)).map jsNumber).get? 0).join = some 3 ∧
      ∃ m, (((jsSplit '.' (probedVersionString res)).map jsNumber).get? 1).join = some m ∧
        11 ≤ m) ∧
    candidateAccepted ⟨some 0, some ""⟩ = false ∧
    candidateAccepted ⟨some 0, some "Python 3.11"⟩ = false ∧
    candidateAccepted ⟨some 0, some "mystery words"⟩ = false ∧
    (∀ (probe : String → CaptureResult) (c : String) (rest : List String),
      candidateAccepted (probe c) = false →
      findFirstUsable probe (c :: rest) = findFirstUsable probe rest) := by
  refine ⟨?_, rfl, rfl, rfl, fun probe c rest h => findFirstUsable_cons_of_rejected probe c rest h⟩
  intro res hres
  unfold candidateAccepted at hres
  simp only [Bool.and_eq_true] at hres
  exact versionOk_true_elim _ hres.2

/-- C10 witness: a garbled probe output on the preferred candidate is
rejected and skipped, and discovery still returns the next candidate. -/
theorem claim10_malformed_probe_output_safe_witness :
    candidateAccepted ⟨some 0, some "Python 3.11"⟩ = false ∧
    findFirstUsable probeFirstGarbled ("python3.12" :: ["python3.11"]) =
      findFirstUsable probeFirstGarbled ["python3.11"] ∧
    findPython311Plus "linux" probeFirstGarbled = some "python3.11" := by
  refine ⟨claim10_malformed_probe_output_safe.2.2.1, ?_, rfl⟩
  exact claim10_malformed_probe_output_safe.2.2.2.2 probeFirstGarbled "python3.12"
    ["python3.11"] rfl

/-! ### Claim theorems: the launcher shim -/

/-- C2: whenever the venv interpreter exists and the child is therefore
spawned, its argument vector is exactly the fixed prefix `-m rql` followed
by the launcher's own arguments verbatim, in order, nothing removed, added
or reinterpreted. -/
theorem claim2_module_args_verbatim (isWin : Bool) (fsExists : List String → Bool)
    (argv : List String) (code : Option Int) (signal : Option String)
    (h : fsExists (venvPython isWin) = true) :
    launcher isWin fsExists argv code signal =
      LaunchOutcome.delegated (venvPython isWin) (["-m", "rql"] ++ argv)
        (onChildExit code signal) ∧
    (["-m", "rql"] ++ argv).take 2 = ["-m", "rql"] ∧
    (["-m", "rql"] ++ argv).drop 2 = argv := by
  refine ⟨?_, rfl, rfl⟩
  simp [launcher, h]

/-- C2 witness: launcher arguments `run script.rql -v` produce exactly the
child argument vector `-m rql run script.rql -v`. -/
theorem claim2_module_args_verbatim_witness :
    launcher false (fun _ => true) ["run", "script.rql", "-v"] (some 0) none =
      LaunchOutcome.delegated (venvPython false)
        ["-m", "rql", "run", "script.rql", "-v"] (Termination.exitCode 0) := by
  have h := claim2_module_args_verbatim false (fun _ => true)
    ["run", "script.rql", "-v"] (some 0) none rfl
  exact h.1

/-- C3: when the child is terminated by a (real, non-empty-named) signal,
the launcher re-delivers that same signal to itself and does not exit with
any translated numeric code; in particular a spawned launcher run ends in
the signalled termination. -/
theorem claim3_signal_redelivery (code : Option Int) (s : String) (hs : s ≠ "") :
    onChildExit code (some s) = Termination.signalled s ∧
    (∀ c : Int, onChildExit code (some s) ≠ Termination.exitCode c) ∧
    (∀ (isWin : Bool) (fsExists : List String → Bool) (argv : List String),
      fsExists (venvPython isWin) = true →
      launcher isWin fsExists argv code (some s) =
        LaunchOutcome.delegated (venvPython isWin) (["-m", "rql"] ++ argv)
          (Termination.signalled s)) := by
  have h : onChildExit code (some s) = Termination.signalled s := by
    simp [onChildExit, hs]
  refine ⟨h, fun c hc => ?_, fun isWin fsExists argv hfs => ?_⟩
  · rw [h] at hc; exact Termination.noConfusion hc
  · simp [launcher, hfs, h]

/-- C3 witness: a child killed by SIGTERM makes the launcher re-raise
SIGTERM. -/
theorem claim3_signal_redelivery_witness :
    onChildExit none (some "SIGTERM") = Termination.signalled "SIGTERM" ∧
    launcher false (fun _ => true) [] none (some "SIGTERM") =
      LaunchOutcome.delegated (venvPython false) ["-m", "rql"]
        (Termination.signalled "SIGTERM") := by
  have h := claim3_signal_redelivery none "SIGTERM" (by simp)
  exact ⟨h.1, by simpa using h.2.2 false (fun _ => true) [] rfl⟩

/-- C6: when the fixed venv interpreter path does not exist, the launcher
fails before spawning anything: exit status 1, the missing-venv message
plus the remediation hint are printed, and the outcome is never a
delegation to a child process. -/
theorem claim6_missing_venv_fails_fast (isWin : Bool) (fsExists : List String → Bool)
    (argv : List String) (code : Option Int) (signal : Option String)
    (h : fsExists (venvPython isWin) = false) :
    launcher isWin fsExists argv code signal =
      LaunchOutcome.failedBeforeSpawn 1
        (failMessages "Python venv not found. Was the postinstall step blocked?") ∧
    (∀ (cmd args : List String) (t : Termination),
      launcher isWin fsExists argv code signal ≠ LaunchOutcome.delegated cmd args t) := by
  have hfail : launcher isWin fsExists argv code signal =
      LaunchOutcome.failedBeforeSpawn 1
        (failMessages "Python venv not found. Was the postinstall step blocked?") := by
    simp [launcher, h]
  refine ⟨hfail, fun cmd args t hc => ?_⟩
  rw [hfail] at hc
  exact LaunchOutcome.noConfusion hc

/-- C6 witness: on an empty filesystem the launcher fails fast with exit
status 1 and both stderr lines. -/
theorem claim6_missing_venv_fails_fast_witness :
    launcher false (fun _ => false) ["run", "x.rql"] none none =
      LaunchOutcome.failedBeforeSpawn 1
        ["[rql-py] Python venv not found. Was the postinstall step blocked?",
         "[rql-py] Try reinstalling: npm rebuild -g rql-py"] := by
  have h := claim6_missing_venv_fails_fast false (fun _ => false) ["run", "x.rql"]
    none none rfl
  exact h.1

/-- C8: when the child terminates normally (no signal), the launcher exits
with exactly the child's exit code, defaulting to 0 when the child
reported no code; a spawned launcher run ends in that exit. -/
theorem claim8_normal_exit_propagated (code : Option Int) :
    onChildExit code none = Termination.exitCode (code.getD 0) ∧
    onChildExit none none = Termination.exitCode 0 ∧
    (∀ (isWin : Bool) (fsExists : List String → Bool) (argv : List String),
      fsExists (venvPython isWin) = true →
      launcher isWin fsExists argv code none =
        LaunchOutcome.delegated (venvPython isWin) (["-m", "rql"] ++ argv)
          (Termination.exitCode (code.getD 0))) := by
  refine ⟨rfl, rfl, fun isWin fsExists argv hfs => ?_⟩
  simp [launcher, hfs, onChildExit]

/-- C8 witness: a child exiting with code 3 makes the launcher exit 3, and
a child with no reported code makes it exit 0. -/
theorem claim8_normal_exit_propagated_witness :
    onChildExit (some 3) none = Termination.exitCode 3 ∧
    onChildExit none none = Termination.exitCode 0 ∧
    launcher false (fun _ => true) [] (some 3) none =
      LaunchOutcome.delegated (venvPython false) ["-m", "rql"]
        (Termination.exitCode 3) := by
  have h := claim8_normal_exit_propagated (some 3)
  exact ⟨h.1, h.2.1, by simpa using h.2.2 false (fun _ => true) [] rfl⟩

/-! ### Concrete provisioner environments used as witnesses -/

/-- Every probe reports 3.12; venv missing; creation fails with status 7. -/
def envCreateFail : ProvisionEnv :=
  { platform := "linux", probe := fun _ => ⟨some 0, some "3.12"⟩,
    venvExists := false, createResult := ⟨some 7, false⟩,
    upgradeResult := ⟨some 0, false⟩, installResult := ⟨some 0, false⟩ }

/-- Every probe reports 3.12; venv already exists; the toolchain upgrade
fails with status 1 while everything else would succeed. -/
def envUpgradeFail : ProvisionEnv :=
  { platform := "linux", probe := fun _ => ⟨some 0, some "3.12"⟩,
    venvExists := true, createResult := ⟨some 0, false⟩,
    upgradeResult := ⟨some 1, false⟩, installResult := ⟨some 0, false⟩ }

/-- Every probe reports 3.12; venv already exists; all steps succeed. -/
def envRerunOk : ProvisionEnv :=
  { platform := "linux", probe := fun _ => ⟨some 0, some "3.12"⟩,
    venvExists := true, createResult := ⟨some 0, false⟩,
    upgradeResult := ⟨some 0, false⟩, installResult := ⟨some 0, false⟩ }

/-- Every probe reports 3.10, so no candidate qualifies. -/
def envNoPython : ProvisionEnv :=
  { platform := "linux", probe := fun _ => ⟨some 0, some "3.10"⟩,
    venvExists := false, createResult := ⟨some 0, false⟩,
    upgradeResult := ⟨some 0, false⟩, installResult := ⟨some 0, false⟩ }

/-! ### Claim theorems: the provisioner -/

/-- C4: when an interpreter was found, the venv directory is absent and
the creation child exits with a non-zero status `s`, provisioning aborts
with exit status exactly `s` and neither the toolchain-upgrade step nor
the install step is attempted. -/
theorem claim4_create_failure_propagates_status (env : ProvisionEnv) (py : String)
    (s : Int) (hf : findPython311Plus env.platform env.probe = some py)
    (hv : env.venvExists = false) (hs : runStatus env.createResult = s) (hnz : s ≠ 0) :
    main env = ⟨some py, true, false, false, s⟩ := by
  unfold main
  rw [hf]
  simp [hv, hs, hnz]

/-- C4 witness: venv creation exiting with status 7 makes provisioning
exit with status 7, with upgrade and install never attempted. -/
theorem claim4_create_failure_propagates_status_witness :
    main envCreateFail =
      { selected := some "python3.12", ranCreate := true, ranUpgrade := false,
        ranInstall := false, exitCode := 7 } :=
  claim4_create_failure_propagates_status envCreateFail "python3.12" 7 rfl rfl rfl
    (by decide)

/-- C5 counterexample: in a run where a compatible interpreter is found and
the venv directory already exists but the toolchain upgrade fails, the
install step is NOT executed — refuting the claim that upgrade and install
are always both executed in such runs. -/
theorem claim5_counterexample_install_skipped :
    findPython311Plus envUpgradeFail.platform envUpgradeFail.probe = some "python3.12" ∧
    envUpgradeFail.venvExists = true ∧
    (main envUpgradeFail).ranCreate = false ∧
    (main envUpgradeFail).ranUpgrade = true ∧
    (main envUpgradeFail).ranInstall = false :=
  ⟨rfl, rfl, rfl, rfl, rfl⟩

/-- C5 (amended): when an interpreter is found and the venv directory
already exists, the creation step is skipped and the upgrade step runs;
the install step runs exactly when the upgrade step exited with status 0. -/
theorem claim5_existing_venv_skips_create (env : ProvisionEnv) (py : String)
    (hf : findPython311Plus env.platform env.probe = some py)
    (hv : env.venvExists = true) :
    (main env).ranCreate = false ∧ (main env).ranUpgrade = true ∧
    ((main env).ranInstall = true ↔ runStatus env.upgradeResult = 0) := by
  unfold main
  rw [hf]
  by_cases hu : runStatus env.upgradeResult = 0 <;>
    by_cases hi : runStatus env.installResult = 0 <;>
      simp [hv, mainAfterCreate, hu, hi]

/-- C5 witness: a fully successful re-run with the venv present skips
creation and runs both later steps. -/
theorem claim5_existing_venv_skips_create_witness :
    (main envRerunOk).ranCreate = false ∧ (main envRerunOk).ranUpgrade = true ∧
    (main envRerunOk).ranInstall = true := by
  have h := claim5_existing_venv_skips_create envRerunOk "python3.12" rfl rfl
  exact ⟨h.1, h.2.1, h.2.2.mpr rfl⟩

/-- C9: "no compatible interpreter" exits 1 with nothing run; a failing
toolchain upgrade aborts with exit 1 and the install step not attempted; a
failing install exits 1; and a run in which all reached steps succeed
exits 0. -/
theorem claim9_fixed_exit_statuses (env : ProvisionEnv) :
    (findPython311Plus env.platform env.probe = none →
      main env = ⟨none, false, false, false, 1⟩) ∧
    ((main env).ranUpgrade = true → runStatus env.upgradeResult ≠ 0 →
      (main env).ranInstall = false ∧ (main env).exitCode = 1) ∧
    ((main env).ranInstall = true → runStatus env.installResult ≠ 0 →
      (main env).exitCode = 1) ∧
    ((findPython311Plus env.platform env.probe).isSome = true →
      (env.venvExists = true ∨ runStatus env.createResult = 0) →
      runStatus env.upgradeResult = 0 → runStatus env.installResult = 0 →
      (main env).exitCode = 0) := by
  unfold main mainAfterCreate
  cases hf : findPython311Plus env.platform env.probe with
  | none => simp
  | some py =>
    by_cases hv : env.venvExists <;>
      by_cases hc : runStatus env.createResult = 0 <;>
        by_cases hu : runStatus env.upgradeResult = 0 <;>
          by_cases hi : runStatus env.installResult = 0 <;>
            simp [hv, hc, hu, hi]

/-- C9 witness: a fully successful re-run exits 0; a failed upgrade exits
1 without the install step; no qualifying interpreter exits 1. -/
theorem claim9_fixed_exit_statuses_witness :
    (main envRerunOk).exitCode = 0 ∧
    ((main envUpgradeFail).ranInstall = false ∧ (main envUpgradeFail).exitCode = 1) ∧
    main envNoPython = ⟨none, false, false, false, 1⟩ := by
  refine ⟨?_, ?_, ?_⟩
  · exact (claim9_fixed_exit_statuses envRerunOk).2.2.2 rfl (Or.inl rfl) rfl rfl
  · exact (claim9_fixed_exit_statuses envUpgradeFail).2.1 rfl (by decide)
  · exact (claim9_fixed_exit_statuses envNoPython).1 rfl

end RqlPy
